import Mathlib

/-!
Verification of the Reaktoro equilibrium formulation-and-solve engine
against its natural-language specification.

This file gives a shallow embedding, in Lean 4, of the C++ sources under
`src/Reaktoro/` (EquilibriumSolver.cpp, Phases.hpp, NasaDatabase.cpp) and
proves or refutes the specified behavioural properties.  Machine floating
point values are modelled by rationals, C++ vectors by lists, and fallible
computations by `Option`/`Except`.  Components of the repository whose code
is not among the given sources (EquilibriumSpecs, EquilibriumSetup, the
Optima optimizer, string utilities) are modelled from the specification's
words; every such definition is marked `Modelled from the spec:` in its
doc string.
-/

namespace Reaktoro

/-! ## Generic list and string helpers -/

/-- Dot product of two rational vectors (zip-truncating, as an embedding of
Eigen's dot product on equally sized vectors). -/
def dotq (r v : List ℚ) : ℚ := (List.zipWith (· * ·) r v).sum

/-- Matrix-vector product: a matrix is a list of rows. -/
def matVec (A : List (List ℚ)) (v : List ℚ) : List ℚ := A.map (fun r => dotq r v)

/-- The absolute value of a rational, written out so that it evaluates on
concrete inputs. -/
def absq (a : ℚ) : ℚ := if a < 0 then -a else a

theorem absq_eq_abs (a : ℚ) : absq a = |a| := by
  rcases lt_or_ge a 0 with h | h
  · rw [absq, if_pos h, abs_of_neg h]
  · rw [absq, if_neg (not_lt.mpr h), abs_of_nonneg h]

/-- Embedding of the Eigen assignment `x.head(n) = v`: overwrite the first
`n` entries of `x` with (the first `n` entries of) `v`. -/
def setHead (x : List ℚ) (n : Nat) (v : List ℚ) : List ℚ := v.take n ++ x.drop n

/-- A string of `k` exclamation marks, the suffix repeatedly appended by
`makeunique(phasenames, "!")` in `Phases::fixDuplicatePhaseNames`. -/
def bangs (k : Nat) : String := String.mk (List.replicate k '!')

/-- The maximum length of the strings in a list. -/
def maxLen (l : List String) : Nat := l.foldr (fun s acc => max s.length acc) 0

theorem length_le_maxLen {s : String} {l : List String} (h : s ∈ l) :
    s.length ≤ maxLen l := by
  induction l with
  | nil => cases h
  | cons a l ih =>
    rcases List.mem_cons.mp h with h | h
    · subst h; exact Nat.le_max_left _ _
    · exact Nat.le_trans (ih h) (Nat.le_max_right _ _)

/-- Modelled from the spec: the suffixing step of `makeunique(words, "!")`
(`Reaktoro/Common/StringUtils.hpp`, not under `src/`) — append the suffix
`"!"` to a candidate name until it no longer collides with any of the
already fixed earlier names. -/
def uniquify (prev : List String) (w : String) : String :=
  if w ∈ prev then uniquify prev (w ++ ("!" : String)) else w
termination_by maxLen prev + 1 - w.length
decreasing_by
  have hle : w.length ≤ maxLen prev := length_le_maxLen (by assumption)
  have hlen : (w ++ ("!" : String)).length = w.length + 1 := by
    simp [String.length_append]
    decide
  omega

theorem uniquify_not_mem (prev : List String) (w : String) :
    uniquify prev w ∉ prev := by
  rw [uniquify]
  split
  · exact uniquify_not_mem prev (w ++ ("!" : String))
  · assumption
termination_by maxLen prev + 1 - w.length
decreasing_by
  have hle : w.length ≤ maxLen prev := length_le_maxLen (by assumption)
  have hlen : (w ++ ("!" : String)).length = w.length + 1 := by
    simp [String.length_append]
    decide
  omega

theorem uniquify_suffixed (prev : List String) (w : String) :
    ∃ k, uniquify prev w = w ++ bangs k := by
  rw [uniquify]
  split
  · obtain ⟨k, hk⟩ := uniquify_suffixed prev (w ++ ("!" : String))
    refine ⟨k + 1, ?_⟩
    rw [hk]
    show w ++ ("!" : String) ++ bangs k = w ++ bangs (k + 1)
    have : ("!" : String) ++ bangs k = bangs (k + 1) := by
      simp [bangs, String.ext_iff, List.replicate_succ]
    rw [String.append_assoc, this]
  · exact ⟨0, by simp [bangs]⟩
termination_by maxLen prev + 1 - w.length
decreasing_by
  have hle : w.length ≤ maxLen prev := length_le_maxLen (by assumption)
  have hlen : (w ++ ("!" : String)).length = w.length + 1 := by
    simp [String.length_append]
    decide
  omega

/-- Modelled from the spec: the left-to-right pass of `makeunique`
(`Reaktoro/Common/StringUtils.hpp`, not under `src/`): each word is made
distinct from all earlier (already fixed) words by suffixing. -/
def makeuniqueGo (fixed : List String) : List String → List String
  | [] => []
  | w :: ws =>
      let w' := uniquify fixed w
      w' :: makeuniqueGo (fixed ++ [w']) ws

/-- Modelled from the spec: `makeunique(words, "!")` from
`Reaktoro/Common/StringUtils.hpp` (not under `src/`): replace duplicate
words by unique ones obtained by appending `"!"` suffixes. -/
def makeunique (words : List String) : List String := makeuniqueGo [] words

theorem makeuniqueGo_length (fixed ws : List String) :
    (makeuniqueGo fixed ws).length = ws.length := by
  induction ws generalizing fixed with
  | nil => rfl
  | cons w ws ih => simp [makeuniqueGo, ih]

theorem makeuniqueGo_nodup (ws : List String) :
    ∀ fixed : List String, fixed.Nodup → (fixed ++ makeuniqueGo fixed ws).Nodup := by
  induction ws with
  | nil => intro fixed h; simpa [makeuniqueGo]
  | cons w ws ih =>
    intro fixed h
    have hw : uniquify fixed w ∉ fixed := uniquify_not_mem fixed w
    have h' : (fixed ++ [uniquify fixed w]).Nodup := by
      simp [List.nodup_append, h, hw]
    have := ih (fixed ++ [uniquify fixed w]) h'
    simpa [makeuniqueGo, List.append_assoc] using this

theorem makeunique_nodup (words : List String) : (makeunique words).Nodup := by
  simpa [makeunique] using makeuniqueGo_nodup words [] List.nodup_nil

theorem makeuniqueGo_suffixed (ws : List String) :
    ∀ fixed : List String,
      List.Forall₂ (fun a b => ∃ k, b = a ++ bangs k) ws (makeuniqueGo fixed ws) := by
  induction ws with
  | nil => intro fixed; simp [makeuniqueGo]
  | cons w ws ih =>
    intro fixed
    refine List.Forall₂.cons ?_ (ih (fixed ++ [uniquify fixed w]))
    exact uniquify_suffixed fixed w

theorem makeunique_suffixed (words : List String) :
    List.Forall₂ (fun a b => ∃ k, b = a ++ bangs k) words (makeunique words) :=
  makeuniqueGo_suffixed words []

/-! ## Phases (from `src/Reaktoro/Core/Phases.hpp`) -/

/-- Modelled from the spec: the `Database` class (`Reaktoro/Core/Database.hpp`,
not under `src/`), reduced to the query used by `Phases::collectElements`:
the element symbols of each named species. -/
structure Database where
  speciesElementSymbols : String → List String

/-- The configuration data of a `GenericPhase` object
(`src/Reaktoro/Core/Phases.hpp`).  The activity-model fields, irrelevant to
naming, are omitted; `phasename`, `names` (selected species) and `symbols`
(element symbols) are kept with their source names. -/
structure GenericPhase where
  phasename : String
  names : List String
  symbols : List String
deriving DecidableEq

/-- `GenericPhase::setName` from `src/Reaktoro/Core/Phases.hpp`. -/
def GenericPhase.setName (p : GenericPhase) (name : String) : GenericPhase :=
  { p with phasename := name }

/-- A `GenericPhases` object (`src/Reaktoro/Core/Phases.hpp`); its
`convert(db, elements)` method builds one `GenericPhase` per matching pure
species.  Its body is not under `src/`, so the conversion is kept as an
abstract function field. -/
structure GenericPhases where
  names : List String
  symbols : List String
  convert : Database → List String → List GenericPhase

/-- One argument of the variadic `Phases::Phases(db, phases...)`
constructor: either a `GenericPhase` or a `GenericPhases` object. -/
inductive PhasesArg where
  | one (phase : GenericPhase)
  | many (phases : GenericPhases)

/-- The element symbols a constructor argument contributes in
`Phases::collectElements`: the argument's own symbols plus the symbols of
the elements composing its explicitly named species (queried from the
database). -/
def PhasesArg.elementSymbols (db : Database) : PhasesArg → List String
  | .one phase => phase.symbols ++ (phase.names.map db.speciesElementSymbols).flatten
  | .many phases => phases.symbols ++ (phases.names.map db.speciesElementSymbols).flatten

/-- Modelled from the spec: `merge` from `Reaktoro/Common/Algorithms.hpp`
(not under `src/`) — union of two symbol lists without duplicating entries
already present. -/
def mergeSymbols (a b : List String) : List String :=
  a ++ b.filter (fun s => !(a.contains s))

/-- The `Phases` container (`src/Reaktoro/Core/Phases.hpp`): the database,
the `GenericPhase` objects collected so far, and the collected element
symbols. -/
structure Phases where
  database : Database
  genericphases : List GenericPhase
  elements : List String

/-- `Phases::collectElements` folded over all constructor arguments. -/
def collectElementsAll (db : Database) (args : List PhasesArg) : List String :=
  args.foldl (fun acc arg => mergeSymbols acc (arg.elementSymbols db)) []

/-- `Phases::append`/`appendPhases`: a `GenericPhase` argument is pushed
directly, a `GenericPhases` argument contributes its converted list. -/
def appendPhasesAll (db : Database) (elements : List String) (args : List PhasesArg) :
    List GenericPhase :=
  args.flatMap fun arg =>
    match arg with
    | .one phase => [phase]
    | .many phases => phases.convert db elements

/-- `Phases::fixDuplicatePhaseNames` (`src/Reaktoro/Core/Phases.hpp`,
lines 304-311): gather the phase names, make them unique with suffix
`"!"`, and write them back with `setName` position by position. -/
def Phases.fixDuplicatePhaseNames (ps : Phases) : Phases :=
  let phasenames := makeunique (ps.genericphases.map (fun x => x.phasename))
  { ps with
    genericphases :=
      List.zipWith (fun phase nm => phase.setName nm) ps.genericphases phasenames }

/-- The `Phases::Phases(db, phases...)` constructor
(`src/Reaktoro/Core/Phases.hpp`, lines 222-229): collect elements, append
the phases, then fix duplicate phase names. -/
def Phases.construct (db : Database) (args : List PhasesArg) : Phases :=
  let elements := collectElementsAll db args
  Phases.fixDuplicatePhaseNames
    { database := db
      genericphases := appendPhasesAll db elements args
      elements := elements }

/-! ## NasaDatabase (from `src/Reaktoro/Extensions/Nasa/NasaDatabase.cpp`) -/

/-- Modelled from the spec: the CMakeRC embedded filesystem holding the
NASA database files (`cmrc::ReaktoroDatabases::get_filesystem()`), reduced
to its lookup of file contents by path. -/
structure EmbeddedFS where
  openFile : String → String

/-- `oneof(name, "cea", "cea-improved", "burcat")` from
`src/Reaktoro/Extensions/Nasa/NasaDatabase.cpp` line 38. -/
def oneofNasaNames (name : String) : Bool :=
  name == ("cea" : String) || name == ("cea-improved" : String) || name == ("burcat" : String)

/-- `getNasaDatabaseContent` (`src/Reaktoro/Extensions/Nasa/NasaDatabase.cpp`,
lines 36-48): `error(...)` unless the name is one of the three supported
ones, otherwise open the embedded file `databases/nasa/<name>.dat` and
return its contents.  `error` is embedded as an `Except.error` outcome. -/
def getNasaDatabaseContent (fs : EmbeddedFS) (name : String) : Except String String :=
  if !(oneofNasaNames name) then
    Except.error ("Could not load embedded NASA database file with name " ++ name)
  else
    Except.ok (fs.openFile (("databases/nasa/" : String) ++ name ++ (".dat" : String)))

/-- Modelled from the spec: a parsed NASA database; its parsing
(`NasaDatabase::fromStream` via `NasaUtils`, not fully under `src/`) is an
abstract function from file contents to the database value. -/
structure NasaDatabase where
  content : String

/-- `NasaDatabase::withName` (`src/Reaktoro/Extensions/Nasa/NasaDatabase.cpp`,
lines 58-63): fetch the embedded content, then parse it with `fromStream`
(kept abstract as `parse`). -/
def NasaDatabase.withName (parse : String → NasaDatabase) (fs : EmbeddedFS)
    (name : String) : Except String NasaDatabase :=
  (getNasaDatabaseContent fs name).map parse

/-! ## The equilibrium data model
(from `src/Reaktoro/Equilibrium/EquilibriumSolver.cpp` and, for the classes
whose sources are not under `src/`, modelled from the spec) -/

/-- Modelled from the spec: the external `ChemicalSystem` catalog, reduced
to its ordered species names and element symbols (the parts the solver
reads: species for output names, elements for conservation counts). -/
structure ChemicalSystem where
  species : List String
  elements : List String

/-- Modelled from the spec: `EquilibriumSpecs` (class not under `src/`) —
the problem shape, holding the associated system and the ordered list of
declared control variables.  Per the spec, `specs.temperature()` and
`specs.pressure()` declare temperature and pressure as the built-in
control variables. -/
structure EquilibriumSpecs where
  system : ChemicalSystem
  controlVariables : List String

/-- Modelled from the spec: `addControlVariable(name)` registers a new
scalar unknown in declaration order. -/
def EquilibriumSpecs.addControlVariable (s : EquilibriumSpecs) (name : String) :
    EquilibriumSpecs :=
  { s with controlVariables := s.controlVariables ++ [name] }

/-- Modelled from the spec: `EquilibriumSpecs specs(system)` starts with no
declared control variables. -/
def EquilibriumSpecs.ofSystem (system : ChemicalSystem) : EquilibriumSpecs :=
  { system := system, controlVariables := [] }

/-- Modelled from the spec: `specs.temperature()` declares the built-in
temperature control variable. -/
def EquilibriumSpecs.temperature (s : EquilibriumSpecs) : EquilibriumSpecs :=
  s.addControlVariable ("temperature" : String)

/-- Modelled from the spec: `specs.pressure()` declares the built-in
pressure control variable. -/
def EquilibriumSpecs.pressure (s : EquilibriumSpecs) : EquilibriumSpecs :=
  s.addControlVariable ("pressure" : String)

/-- `defaultEquilibriumSpecs` (`src/Reaktoro/Equilibrium/EquilibriumSolver.cpp`,
lines 44-51): the specifications of the classic Gibbs energy minimization
problem — a fresh `EquilibriumSpecs` on which `temperature()` and
`pressure()` are invoked. -/
def defaultEquilibriumSpecs (system : ChemicalSystem) : EquilibriumSpecs :=
  ((EquilibriumSpecs.ofSystem system).temperature).pressure

/-- The `EquilibriumDims` record (header not under `src/`). -/
structure EquilibriumDims where
  Nn : Nat
  Nx : Nat
  Np : Nat
  Nc : Nat
deriving DecidableEq

/-- Modelled from the spec: the Dimension Resolver
(`Reaktoro/Equilibrium/EquilibriumDims.hpp`, not under `src/`) — a pure
function from a specification: `Nn` species, `Np` parameters (one per
declared control variable), `Nx = Nn` plus one control-linked auxiliary
primal variable per control variable, and `Nc` conservation constraints
(one per element plus charge). -/
def EquilibriumDims.ofSpecs (specs : EquilibriumSpecs) : EquilibriumDims :=
  { Nn := specs.system.species.length
    Nx := specs.system.species.length + specs.controlVariables.length
    Np := specs.controlVariables.length
    Nc := specs.system.elements.length + 1 }

/-- The `Optima::Dims` record set up in `updateOptProblem`: primal (`x`),
parameter (`p`) and linear-equality (`be`) dimensions. -/
structure OptDims where
  x : Nat
  p : Nat
  be : Nat
deriving DecidableEq

/-- The `Optima::State` iterate: primal variables `x`, parameter variables
`p`, and dual variables `y` of the linear constraints. -/
structure OptimaState where
  x : List ℚ
  p : List ℚ
  y : List ℚ
deriving DecidableEq

/-- Modelled from the spec: `Optima::State(dims)` — a freshly constructed
iterate with all variables at the neutral default zero. -/
def OptimaState.ofDims (d : OptDims) : OptimaState :=
  { x := List.replicate d.x 0
    p := List.replicate d.p 0
    y := List.replicate d.be 0 }

/-- The outcome record of `Optima::Solver::solve`: the converged flag and
the iteration count (`Optima::Result`). -/
structure OptimaResult where
  succeeded : Bool
  iterations : Nat
deriving DecidableEq

/-- The `EquilibriumResult` returned by a solve call. -/
structure EquilibriumResult where
  optima : OptimaResult
deriving DecidableEq

/-- The external `ChemicalState`: temperature, pressure, species amounts,
and the equilibrium-private stored optimizer iterate used for warm
starting (`state.equilibrium().optimaState()`). -/
structure ChemicalState where
  temperature : ℚ
  pressure : ℚ
  speciesAmounts : List ℚ
  equilibrium : OptimaState
deriving DecidableEq

/-- The `EquilibriumOptions` record (header not under `src/`): the
numerical tolerance `epsilon` plus the diagnostic-output settings
`options.optima.output.active`, `.xprefix` and `.xnames` flattened in. -/
structure EquilibriumOptions where
  epsilon : ℚ
  optimaOutputActive : Bool
  optimaOutputXPrefixName : String
  optimaOutputXNames : List String
deriving DecidableEq

/-- Modelled from the spec: the default-constructed `EquilibriumOptions`
has a small strictly positive tolerance and diagnostic output off. -/
def defaultEquilibriumOptions : EquilibriumOptions :=
  { epsilon := 1 / 10 ^ 16
    optimaOutputActive := false
    optimaOutputXPrefixName := ("x" : String)
    optimaOutputXNames := [] }

/-- Modelled from the spec: `EquilibriumConditions` (class not under
`src/`) — the per-solve value holder bound to one specification, storing a
numeric value for each set control variable, in setting order. -/
structure EquilibriumConditions where
  specs : EquilibriumSpecs
  values : List (String × ℚ)

/-- Modelled from the spec: `EquilibriumConditions conditions(specs)` with
no value set yet. -/
def EquilibriumConditions.ofSpecs (specs : EquilibriumSpecs) : EquilibriumConditions :=
  { specs := specs, values := [] }

/-- Modelled from the spec: `conditions.temperature(value)`, semantic sugar
over `set("temperature", value)`. -/
def EquilibriumConditions.temperature (c : EquilibriumConditions) (value : ℚ) :
    EquilibriumConditions :=
  { c with values := c.values ++ [(("temperature" : String), value)] }

/-- Modelled from the spec: `conditions.pressure(value)`, semantic sugar
over `set("pressure", value)`. -/
def EquilibriumConditions.pressure (c : EquilibriumConditions) (value : ℚ) :
    EquilibriumConditions :=
  { c with values := c.values ++ [(("pressure" : String), value)] }

/-- Modelled from the spec: `conditions.params()` — the dense parameter
vector derived from the stored control-variable values. -/
def EquilibriumConditions.params (c : EquilibriumConditions) : List ℚ :=
  c.values.map Prod.snd

/-- Modelled from the spec: `EquilibriumRestrictions` (class not under
`src/`) — per-species bound overrides, empty by default (no
restriction). -/
structure EquilibriumRestrictions where
  system : ChemicalSystem
  lowerOverrides : List (Nat × ℚ)
  upperOverrides : List (Nat × ℚ)

/-- Modelled from the spec: `EquilibriumRestrictions restrictions(system)`
imposes no restriction. -/
def EquilibriumRestrictions.ofSystem (system : ChemicalSystem) : EquilibriumRestrictions :=
  { system := system, lowerOverrides := [], upperOverrides := [] }

/-- Modelled from the spec: `EquilibriumSetup`
(`Reaktoro/Equilibrium/EquilibriumSetup.cpp`, not under `src/`) — the
physics bridge, a pure evaluator keyed by primal vector, parameter vector
and condition parameters.  Per the spec's failure policy, an evaluation
the thermodynamic property model cannot complete surfaces as
`PropertyEvaluationFailed`, embedded here as the `none` outcome of each
evaluator.  The conservation matrices, right-hand side and bound vectors
are the assembled linear-algebra data. -/
structure EquilibriumSetup where
  options : EquilibriumOptions
  evalObjectiveValue : List ℚ → List ℚ → List ℚ → Option ℚ
  evalObjectiveGradX : List ℚ → List ℚ → List ℚ → Option (List ℚ)
  evalObjectiveHessianX : List ℚ → List ℚ → List ℚ → Option (List (List ℚ))
  evalObjectiveHessianP : List ℚ → List ℚ → List ℚ → Option (List (List ℚ))
  evalEquationConstraints : List ℚ → List ℚ → List ℚ → Option (List ℚ)
  evalEquationConstraintsGradX : List ℚ → List ℚ → List ℚ → Option (List (List ℚ))
  evalEquationConstraintsGradP : List ℚ → List ℚ → List ℚ → Option (List (List ℚ))
  assembleMatrixAex : List (List ℚ)
  assembleMatrixAep : List (List ℚ)
  assembleVectorBe : EquilibriumConditions → ChemicalState → List ℚ
  assembleLowerBoundsVector : EquilibriumRestrictions → ChemicalState → List ℚ
  assembleUpperBoundsVector : EquilibriumRestrictions → ChemicalState → List ℚ

/-- `setup.setOptions(options)`: forward the solver options to the problem
setup. -/
def EquilibriumSetup.setOptions (s : EquilibriumSetup) (opts : EquilibriumOptions) :
    EquilibriumSetup :=
  { s with options := opts }

/-- The evaluation-request flags the optimizer passes to the objective
callback (`Optima::ObjectiveOptions::eval`). -/
structure ObjectiveOptions where
  evalFxx : Bool
  evalFxp : Bool

/-- The result record filled by the objective callback
(`Optima::ObjectiveResultRef`): value, gradient, requested Hessians, and
the `succeeded` flag telling the optimizer whether the evaluation
completed. -/
structure ObjectiveResult where
  f : Option ℚ
  fx : Option (List ℚ)
  fxx : Option (List (List ℚ))
  fxp : Option (List (List ℚ))
  succeeded : Bool

/-- The evaluation-request flags the optimizer passes to the constraint
callback (`Optima::ConstraintOptions::eval`). -/
structure ConstraintOptions where
  evalDdx : Bool
  evalDdp : Bool

/-- The result record filled by the external constraint callback
(`Optima::ConstraintResultRef`). -/
structure ConstraintResult where
  val : Option (List ℚ)
  ddx : Option (List (List ℚ))
  ddp : Option (List (List ℚ))
  succeeded : Bool

/-- The objective callback installed on `optproblem.f` in
`EquilibriumSolver::Impl::updateOptProblem`
(`src/Reaktoro/Equilibrium/EquilibriumSolver.cpp`, lines 138-150): it
evaluates the objective value and gradient, the Hessians only when
requested, and then sets `res.succeeded = true`. -/
def objectiveCallback (setup : EquilibriumSetup) (params : List ℚ)
    (x p : List ℚ) (opts : ObjectiveOptions) : ObjectiveResult :=
  { f := setup.evalObjectiveValue x p params
    fx := setup.evalObjectiveGradX x p params
    fxx := if opts.evalFxx then setup.evalObjectiveHessianX x p params else none
    fxp := if opts.evalFxp then setup.evalObjectiveHessianP x p params else none
    succeeded := true }

/-- The external constraint callback installed on `optproblem.v` in
`EquilibriumSolver::Impl::updateOptProblem`
(`src/Reaktoro/Equilibrium/EquilibriumSolver.cpp`, lines 152-164): it
evaluates the equation-constraint residuals, the Jacobians only when
requested, and then sets `res.succeeded = true`. -/
def constraintCallback (setup : EquilibriumSetup) (params : List ℚ)
    (x p : List ℚ) (opts : ConstraintOptions) : ConstraintResult :=
  { val := setup.evalEquationConstraints x p params
    ddx := if opts.evalDdx then setup.evalEquationConstraintsGradX x p params else none
    ddp := if opts.evalDdp then setup.evalEquationConstraintsGradP x p params else none
    succeeded := true }

/-- The `Optima::Problem` assembled for one equilibrium calculation. -/
structure OptProblem where
  dims : OptDims
  f : List ℚ → List ℚ → ObjectiveOptions → ObjectiveResult
  v : List ℚ → List ℚ → ConstraintOptions → ConstraintResult
  Aex : List (List ℚ)
  Aep : List (List ℚ)
  be : List ℚ
  xlower : List ℚ
  xupper : List ℚ

/-- The state of `EquilibriumSolver::Impl`
(`src/Reaktoro/Equilibrium/EquilibriumSolver.cpp`, lines 55-93): the
system, specs, dims, setup and options, plus the external
`Optima::Solver` (`optsolver.solve(optproblem, optstate)`) kept as an
abstract function from a problem and an initial iterate to a result and a
final iterate. -/
structure Impl where
  system : ChemicalSystem
  specs : EquilibriumSpecs
  dims : EquilibriumDims
  setup : EquilibriumSetup
  options : EquilibriumOptions
  optsolver : OptProblem → OptimaState → OptimaResult × OptimaState

/-- `EquilibriumSolver::Impl::setOptions`
(`src/Reaktoro/Equilibrium/EquilibriumSolver.cpp`, lines 96-120), with the
thrown `error(...)` embedded in the returned flag: first `options = opts`
and `setup.setOptions(options)` are executed, then
`error(options.epsilon <= 0, ...)` aborts (flag `true`), and otherwise
the diagnostic-output names are initialized when output is active.  The
returned `Impl` is the object as left by the call, including the
mutations performed before a failed check. -/
def Impl.setOptionsRun (impl : Impl) (opts : EquilibriumOptions) : Impl × Bool :=
  let impl1 := { impl with options := opts, setup := impl.setup.setOptions opts }
  if opts.epsilon ≤ 0 then
    (impl1, true)
  else if opts.optimaOutputActive then
    ({ impl1 with
        options :=
          { opts with
              optimaOutputXPrefixName := ("n" : String)
              optimaOutputXNames := opts.optimaOutputXNames ++ impl.system.species } },
      false)
  else
    (impl1, false)

/-- `EquilibriumSolver::Impl::updateOptProblem`
(`src/Reaktoro/Equilibrium/EquilibriumSolver.cpp`, lines 122-176): build
the `Optima::Dims`, install the objective and constraint callbacks bound
to the setup and the conditions' parameters, and set the conservation
matrices `Aex`/`Aep`, the right-hand side `be` and the bound vectors. -/
def Impl.updateOptProblem (impl : Impl) (state0 : ChemicalState)
    (conditions : EquilibriumConditions) (restrictions : EquilibriumRestrictions) :
    OptProblem :=
  let params := conditions.params
  { dims := { x := impl.dims.Nx, p := impl.dims.Np, be := impl.dims.Nc }
    f := objectiveCallback impl.setup params
    v := constraintCallback impl.setup params
    Aex := impl.setup.assembleMatrixAex
    Aep := impl.setup.assembleMatrixAep
    be := impl.setup.assembleVectorBe conditions state0
    xlower := impl.setup.assembleLowerBoundsVector restrictions state0
    xupper := impl.setup.assembleUpperBoundsVector restrictions state0 }

/-- `EquilibriumSolver::Impl::updateOptState`
(`src/Reaktoro/Equilibrium/EquilibriumSolver.cpp`, lines 178-187): start
from the iterate stored in the chemical state; replace it by a fresh
zero iterate when its primal dimension differs from `Nx`; then overwrite
its first `Nn` primal entries with the state's current species amounts. -/
def Impl.updateOptState (impl : Impl) (optdims : OptDims) (state0 : ChemicalState) :
    OptimaState :=
  let optstate := state0.equilibrium
  let optstate := if optstate.x.length ≠ impl.dims.Nx then OptimaState.ofDims optdims else optstate
  { optstate with x := setHead optstate.x impl.dims.Nn state0.speciesAmounts }

/-- `EquilibriumSolver::Impl::updateChemicalState`
(`src/Reaktoro/Equilibrium/EquilibriumSolver.cpp`, lines 189-194): write
the first `Nn` entries of the final iterate into the state's species
amounts and store the complete final iterate for future warm starts. -/
def Impl.updateChemicalState (impl : Impl) (state : ChemicalState)
    (optstate : OptimaState) : ChemicalState :=
  { state with
    speciesAmounts := optstate.x.take impl.dims.Nn
    equilibrium := optstate }

/-- The three-argument
`EquilibriumSolver::Impl::solve(state0, conditions, restrictions)`
(`src/Reaktoro/Equilibrium/EquilibriumSolver.cpp`, lines 267-280):
assemble the problem, assemble the initial iterate, run the optimizer,
write the outcome back into the chemical state, and return the result.
The mutation of `state0` is embedded by returning the updated state. -/
def Impl.solve3 (impl : Impl) (state0 : ChemicalState)
    (conditions : EquilibriumConditions) (restrictions : EquilibriumRestrictions) :
    ChemicalState × EquilibriumResult :=
  let optproblem := impl.updateOptProblem state0 conditions restrictions
  let optstate0 := impl.updateOptState optproblem.dims state0
  let outcome := impl.optsolver optproblem optstate0
  (impl.updateChemicalState state0 outcome.2, { optima := outcome.1 })

/-- The two-argument `Impl::solve(state0, conditions)`
(`src/Reaktoro/Equilibrium/EquilibriumSolver.cpp`, lines 260-265):
construct default restrictions and delegate. -/
def Impl.solve2 (impl : Impl) (state0 : ChemicalState)
    (conditions : EquilibriumConditions) : ChemicalState × EquilibriumResult :=
  impl.solve3 state0 conditions (EquilibriumRestrictions.ofSystem impl.system)

/-- The one-argument `Impl::solve(state0)`
(`src/Reaktoro/Equilibrium/EquilibriumSolver.cpp`, lines 251-258):
construct conditions fixing temperature and pressure at the state's
current values and delegate. -/
def Impl.solve1 (impl : Impl) (state0 : ChemicalState) :
    ChemicalState × EquilibriumResult :=
  let conditions :=
    ((EquilibriumConditions.ofSpecs impl.specs).temperature state0.temperature).pressure
      state0.pressure
  impl.solve2 state0 conditions

/-- The `EquilibriumSolver::Impl::Impl(specs)` constructor
(`src/Reaktoro/Equilibrium/EquilibriumSolver.cpp`, lines 87-93): record
the specs' system, the specs, the derived dims and the setup (whose
construction from the specs is abstracted by the `setup0` argument), then
initialize with the default options via `setOptions`. -/
def Impl.ofSpecs (specs : EquilibriumSpecs) (setup0 : EquilibriumSetup)
    (osolver : OptProblem → OptimaState → OptimaResult × OptimaState) : Impl :=
  (Impl.setOptionsRun
    { system := specs.system
      specs := specs
      dims := EquilibriumDims.ofSpecs specs
      setup := setup0
      options := defaultEquilibriumOptions
      optsolver := osolver }
    defaultEquilibriumOptions).1

/-- The `EquilibriumSolver(system)` constructor
(`src/Reaktoro/Equilibrium/EquilibriumSolver.cpp`, lines 283-285): build
the `Impl` from `defaultEquilibriumSpecs(system)`. -/
def equilibriumSolverOfSystem (system : ChemicalSystem) (setup0 : EquilibriumSetup)
    (osolver : OptProblem → OptimaState → OptimaResult × OptimaState) : Impl :=
  Impl.ofSpecs (defaultEquilibriumSpecs system) setup0 osolver

/-- The final iterate produced by the optimizer inside
`Impl::solve3`: the second component of `optsolver.solve(optproblem,
optstate)` on the assembled problem and initial iterate. -/
def Impl.solveFinalIterate (impl : Impl) (state0 : ChemicalState)
    (conditions : EquilibriumConditions) (restrictions : EquilibriumRestrictions) :
    OptimaState :=
  let optproblem := impl.updateOptProblem state0 conditions restrictions
  (impl.optsolver optproblem (impl.updateOptState optproblem.dims state0)).2

/-- The residuals of the linear equality constraints `Aex x + Aep p = be`
of an assembled optimization problem at an iterate `(x, p)`, one entry
per component of `be`. -/
def linResidual (problem : OptProblem) (x p : List ℚ) : List ℚ :=
  (List.range problem.be.length).map fun i =>
    (matVec problem.Aex x).getD i 0 + (matVec problem.Aep p).getD i 0 - problem.be.getD i 0

/-- Modelled from the spec: the contract of the external Optima optimizer
(spec §4.7) — when it reports convergence, the final iterate satisfies
the linear equality constraints of the problem within the tolerance
`eps`. -/
def OptSolverFeasibleOnSuccess
    (osolver : OptProblem → OptimaState → OptimaResult × OptimaState) (eps : ℚ) : Prop :=
  ∀ problem s0, (osolver problem s0).1.succeeded = true →
    ∀ r ∈ linResidual problem (osolver problem s0).2.x (osolver problem s0).2.p,
      absq r ≤ eps

/-- Modelled from the spec: the contract of the external Optima optimizer
(spec §4.7) — the final iterate it returns has the dimensions of the
problem it was given. -/
def OptSolverPreservesDims
    (osolver : OptProblem → OptimaState → OptimaResult × OptimaState) : Prop :=
  ∀ problem s0, (osolver problem s0).2.x.length = problem.dims.x ∧
    (osolver problem s0).2.p.length = problem.dims.p

/-! ## Concrete fixtures used to evaluate the development on closed inputs -/

/-- A one-species, two-element chemical system. -/
def sampleSystem : ChemicalSystem :=
  { species := [("H2O" : String)], elements := [("H" : String), ("O" : String)] }

/-- A problem setup over `sampleSystem` with everywhere-defined evaluators,
a 1-by-1 conservation matrix and a constant right-hand side. -/
def sampleSetup : EquilibriumSetup :=
  { options := defaultEquilibriumOptions
    evalObjectiveValue := fun _ _ _ => some 0
    evalObjectiveGradX := fun _ _ _ => some [0]
    evalObjectiveHessianX := fun _ _ _ => some [[0]]
    evalObjectiveHessianP := fun _ _ _ => some [[0]]
    evalEquationConstraints := fun _ _ _ => some []
    evalEquationConstraintsGradX := fun _ _ _ => some []
    evalEquationConstraintsGradP := fun _ _ _ => some []
    assembleMatrixAex := [[1]]
    assembleMatrixAep := [[]]
    assembleVectorBe := fun _ _ => [0]
    assembleLowerBoundsVector := fun _ _ => [0]
    assembleUpperBoundsVector := fun _ _ => [0] }

/-- A setup whose thermodynamic property model cannot complete any
objective or equation-constraint evaluation. -/
def failingSetup : EquilibriumSetup :=
  { sampleSetup with
    evalObjectiveValue := fun _ _ _ => none
    evalObjectiveGradX := fun _ _ _ => none
    evalEquationConstraints := fun _ _ _ => none }

/-- An optimizer stub that reports divergence and returns its input
iterate unchanged. -/
def trivialSolver : OptProblem → OptimaState → OptimaResult × OptimaState :=
  fun _ s0 => ({ succeeded := false, iterations := 0 }, s0)

/-- Specifications over `sampleSystem` with no control variable (classic
Gibbs energy minimization with all inputs given): `Nx = Nn`, `Np = 0`. -/
def sampleSpecsGEM : EquilibriumSpecs := EquilibriumSpecs.ofSystem sampleSystem

/-- Specifications over `sampleSystem` with one custom control variable,
so that `Nx = Nn + 1`. -/
def sampleSpecsPH : EquilibriumSpecs :=
  (EquilibriumSpecs.ofSystem sampleSystem).addControlVariable (("pH" : String))

/-- A solver `Impl` over `sampleSpecsPH` (the optimizer is never invoked by
the warm-start step under scrutiny). -/
def implPH : Impl :=
  { system := sampleSystem
    specs := sampleSpecsPH
    dims := EquilibriumDims.ofSpecs sampleSpecsPH
    setup := sampleSetup
    options := defaultEquilibriumOptions
    optsolver := trivialSolver }

/-- A solver `Impl` over `sampleSpecsGEM` with a failing property model. -/
def implFail : Impl :=
  { system := sampleSystem
    specs := sampleSpecsGEM
    dims := EquilibriumDims.ofSpecs sampleSpecsGEM
    setup := failingSetup
    options := defaultEquilibriumOptions
    optsolver := trivialSolver }

/-- A chemical state whose species amounts were modified after the iterate
of a previous solve (primal dimension 2, matching `sampleSpecsPH`) was
stored in it. -/
def staleState : ChemicalState :=
  { temperature := 300
    pressure := 100000
    speciesAmounts := [5]
    equilibrium := { x := [1, 2], p := [3], y := [4] } }

/-- The `Optima::Dims` matching `sampleSpecsPH`. -/
def optdimsPH : OptDims := { x := 2, p := 1, be := 3 }

/-- Conditions over `sampleSpecsGEM` with no value set. -/
def condsGEM : EquilibriumConditions := EquilibriumConditions.ofSpecs sampleSpecsGEM

/-- No-restriction defaults over `sampleSystem`. -/
def restrGEM : EquilibriumRestrictions := EquilibriumRestrictions.ofSystem sampleSystem

/-- A fresh chemical state over `sampleSystem` with no stored iterate. -/
def freshState : ChemicalState :=
  { temperature := 298
    pressure := 100000
    speciesAmounts := [1]
    equilibrium := { x := [], p := [], y := [] } }

/-! ## Claim theorems -/

/-- Claim C1, counterexample: with a property model that cannot complete
the objective or the constraint evaluation at the trial composition, the
callbacks that `updateOptProblem` hands to the optimizer still report the
evaluation as succeeded (`res.succeeded = true`), contradicting the claim
that such an evaluation is reported as failed. -/
theorem callbacks_ignore_failure_counterexample :
    ((implFail.updateOptProblem freshState condsGEM restrGEM).f [] []
      { evalFxx := false, evalFxp := false }).succeeded = true ∧
    implFail.setup.evalObjectiveValue [] [] condsGEM.params = none ∧
    ((implFail.updateOptProblem freshState condsGEM restrGEM).v [] []
      { evalDdx := false, evalDdp := false }).succeeded = true ∧
    implFail.setup.evalEquationConstraints [] [] condsGEM.params = none :=
  ⟨rfl, rfl, rfl, rfl⟩

/-- Claim C1, amended: for every solve call, the objective and constraint
evaluation callbacks handed to the generic optimizer unconditionally
report the evaluation as succeeded (`res.succeeded = true`), whether or
not the thermodynamic property model could complete it; a failed property
evaluation is never reported to the optimizer through the succeeded
flag (`src/Reaktoro/Equilibrium/EquilibriumSolver.cpp`, lines 149 and
163). -/
theorem callbacks_always_report_success (impl : Impl) (state0 : ChemicalState)
    (conditions : EquilibriumConditions) (restrictions : EquilibriumRestrictions)
    (x p : List ℚ) (oopts : ObjectiveOptions) (copts : ConstraintOptions) :
    ((impl.updateOptProblem state0 conditions restrictions).f x p oopts).succeeded = true ∧
    ((impl.updateOptProblem state0 conditions restrictions).v x p copts).succeeded = true :=
  ⟨rfl, rfl⟩

/-- Claim C2, counterexample: a stored iterate whose primal dimension
matches `Nx` is nevertheless not reused as the starting point — the
assignment `optstate.x.head(Nn) = state0.speciesAmounts()` runs
unconditionally, so when the state's species amounts were changed after
the iterate was stored, the starting iterate differs from the stored
one. -/
theorem warm_start_reuse_counterexample :
    staleState.equilibrium.x.length = implPH.dims.Nx ∧
    implPH.updateOptState optdimsPH staleState ≠ staleState.equilibrium := by
  decide

/-- Claim C2, amended: if the input chemical state carries a stored
iterate whose primal dimension matches `Nx`, that iterate is reused
except that its first `Nn` primal entries are overwritten with the
state's current species amounts; otherwise a fresh zero-initialized
iterate of the optimization dimensions is created and its first `Nn`
primal entries are likewise set from the species amounts. -/
theorem warm_start_amended (impl : Impl) (optdims : OptDims) (state0 : ChemicalState) :
    (state0.equilibrium.x.length = impl.dims.Nx →
      impl.updateOptState optdims state0 =
        { state0.equilibrium with
          x := setHead state0.equilibrium.x impl.dims.Nn state0.speciesAmounts }) ∧
    (state0.equilibrium.x.length ≠ impl.dims.Nx →
      impl.updateOptState optdims state0 =
        { OptimaState.ofDims optdims with
          x := setHead (OptimaState.ofDims optdims).x impl.dims.Nn state0.speciesAmounts }) := by
  constructor <;> intro h <;> simp [Impl.updateOptState, h]

/-- Claim C2, witness for the amended theorem: on the concrete matching
stored iterate `[1, 2]` with current species amounts `[5]`, the starting
iterate keeps the auxiliary primal entry and the dual data but carries the
refreshed species amount. -/
theorem warm_start_amended_witness :
    implPH.updateOptState optdimsPH staleState =
      { staleState.equilibrium with
        x := setHead staleState.equilibrium.x implPH.dims.Nn staleState.speciesAmounts } :=
  (warm_start_amended implPH optdimsPH staleState).1 (by decide)

/-- Claim C3: for every solve call — whatever result flag the optimizer
reports — the returned chemical state carries as species amounts the first
`Nn` entries of the optimizer's final iterate, stores the complete final
iterate for future warm starts, and keeps its other fields; so partial
progress is never discarded. -/
theorem solve_writes_back_regardless_of_convergence (impl : Impl)
    (state0 : ChemicalState) (conditions : EquilibriumConditions)
    (restrictions : EquilibriumRestrictions) :
    ((impl.solve3 state0 conditions restrictions).1).speciesAmounts =
      (impl.solveFinalIterate state0 conditions restrictions).x.take impl.dims.Nn ∧
    ((impl.solve3 state0 conditions restrictions).1).equilibrium =
      impl.solveFinalIterate state0 conditions restrictions ∧
    ((impl.solve3 state0 conditions restrictions).1).temperature = state0.temperature ∧
    ((impl.solve3 state0 conditions restrictions).1).pressure = state0.pressure :=
  ⟨rfl, rfl, rfl, rfl⟩

/-- Claim C4: `solve(state)` delegates to the three-argument solve with
conditions fixing temperature and pressure at the state's current values
and with no-restriction defaults, and `solve(state, conditions)`
delegates to the three-argument solve with no-restriction defaults — the
overloads perform no different algorithm. -/
theorem solve_overloads_delegate (impl : Impl) (state0 : ChemicalState) :
    impl.solve1 state0 =
      impl.solve3 state0
        (((EquilibriumConditions.ofSpecs impl.specs).temperature
            state0.temperature).pressure state0.pressure)
        (EquilibriumRestrictions.ofSystem impl.system) ∧
    ∀ conditions : EquilibriumConditions,
      impl.solve2 state0 conditions =
        impl.solve3 state0 conditions (EquilibriumRestrictions.ofSystem impl.system) :=
  ⟨rfl, fun _ => rfl⟩

/-- Claim C5: `setOptions(options)` fails if and only if the numerical
tolerance `epsilon` is not strictly positive. -/
theorem setOptions_fails_iff_nonpositive_epsilon (impl : Impl)
    (opts : EquilibriumOptions) :
    (impl.setOptionsRun opts).2 = true ↔ opts.epsilon ≤ 0 := by
  by_cases h : opts.epsilon ≤ 0
  · simp [Impl.setOptionsRun, h]
  · cases hact : opts.optimaOutputActive <;> simp [Impl.setOptionsRun, h, hact]

/-- Claim C6: an `EquilibriumSolver` constructed directly from a chemical
system uses `defaultEquilibriumSpecs`, in which temperature and pressure
are present as the built-in control variables. -/
theorem solver_from_system_has_temperature_pressure_controls
    (system : ChemicalSystem) (setup0 : EquilibriumSetup)
    (osolver : OptProblem → OptimaState → OptimaResult × OptimaState) :
    ("temperature" : String) ∈
      (equilibriumSolverOfSystem system setup0 osolver).specs.controlVariables ∧
    ("pressure" : String) ∈
      (equilibriumSolverOfSystem system setup0 osolver).specs.controlVariables := by
  simp only [equilibriumSolverOfSystem, Impl.ofSpecs, Impl.setOptionsRun,
    defaultEquilibriumOptions, defaultEquilibriumSpecs, EquilibriumSpecs.ofSystem,
    EquilibriumSpecs.temperature, EquilibriumSpecs.pressure,
    EquilibriumSpecs.addControlVariable]
  split_ifs <;> simp

/-- Claim C10: `setOptions` stores the supplied options into the solver
and forwards them to the problem setup before validating `epsilon`; after
a call failing on a non-positive `epsilon`, the stored options and the
setup's options are the invalid ones. -/
theorem setOptions_not_atomic_on_error (impl : Impl) (opts : EquilibriumOptions)
    (h : opts.epsilon ≤ 0) :
    (impl.setOptionsRun opts).1.options = opts ∧
    (impl.setOptionsRun opts).1.setup = impl.setup.setOptions opts ∧
    (impl.setOptionsRun opts).2 = true := by
  simp [Impl.setOptionsRun, h]

/-- Claim C10, witness: a concrete failing `setOptions` call with
`epsilon = 0` leaves the invalid options stored in the solver and in the
setup. -/
theorem setOptions_not_atomic_on_error_witness :
    (implPH.setOptionsRun { defaultEquilibriumOptions with epsilon := 0 }).1.options =
      { defaultEquilibriumOptions with epsilon := 0 } ∧
    (implPH.setOptionsRun { defaultEquilibriumOptions with epsilon := 0 }).1.setup =
      implPH.setup.setOptions { defaultEquilibriumOptions with epsilon := 0 } ∧
    (implPH.setOptionsRun { defaultEquilibriumOptions with epsilon := 0 }).2 = true :=
  setOptions_not_atomic_on_error implPH
    { defaultEquilibriumOptions with epsilon := 0 } (by norm_num)

theorem map_phasename_zipWith_setName (gps : List GenericPhase) (names : List String)
    (h : names.length = gps.length) :
    (List.zipWith (fun phase nm => phase.setName nm) gps names).map
      (fun x => x.phasename) = names := by
  induction gps generalizing names with
  | nil => cases names with
    | nil => rfl
    | cons a l => simp at h
  | cons g gps ih =>
    cases names with
    | nil => simp at h
    | cons a l =>
      simp only [List.zipWith_cons_cons, List.map_cons, GenericPhase.setName]
      exact congrArg (a :: ·) (ih l (by simpa using h))

/-- Claim C8: for every `Phases` object constructed from a database and a
sequence of `GenericPhase`/`GenericPhases` arguments, the phase names held
after construction are pairwise distinct, and each held name is the
originally collected name with some number of `"!"` suffixes appended —
duplicates are made unique by suffixing, never left duplicated. -/
theorem phases_construct_names_nodup (db : Database) (args : List PhasesArg) :
    ((Phases.construct db args).genericphases.map (fun x => x.phasename)).Nodup ∧
    List.Forall₂ (fun a b => ∃ k, b = a ++ bangs k)
      ((appendPhasesAll db (collectElementsAll db args) args).map (fun x => x.phasename))
      ((Phases.construct db args).genericphases.map (fun x => x.phasename)) := by
  have hmap :
      (Phases.construct db args).genericphases.map (fun x => x.phasename) =
        makeunique ((appendPhasesAll db (collectElementsAll db args) args).map
          (fun x => x.phasename)) := by
    apply map_phasename_zipWith_setName
    simp [makeunique, makeuniqueGo_length]
  rw [hmap]
  exact ⟨makeunique_nodup _, makeunique_suffixed _⟩

/-- Claim C9: `NasaDatabase::withName(name)` (via `getNasaDatabaseContent`)
fails with an error if and only if `name` is not one of exactly `"cea"`,
`"cea-improved"` or `"burcat"`; for those three names it proceeds to load
(and parse) the embedded database file `databases/nasa/<name>.dat`. -/
theorem nasa_withName_fails_iff_unknown_name (parse : String → NasaDatabase)
    (fs : EmbeddedFS) (name : String) :
    ((∃ e, NasaDatabase.withName parse fs name = Except.error e) ↔
      ¬(name = ("cea" : String) ∨ name = ("cea-improved" : String) ∨
        name = ("burcat" : String))) ∧
    ((name = ("cea" : String) ∨ name = ("cea-improved" : String) ∨
        name = ("burcat" : String)) →
      NasaDatabase.withName parse fs name =
        Except.ok (parse (fs.openFile
          (("databases/nasa/" : String) ++ name ++ (".dat" : String))))) := by
  have hone : oneofNasaNames name = true ↔
      (name = ("cea" : String) ∨ name = ("cea-improved" : String) ∨
        name = ("burcat" : String)) := by
    simp [oneofNasaNames]
    tauto
  constructor
  · by_cases h : oneofNasaNames name = true
    · simp [NasaDatabase.withName, getNasaDatabaseContent, h, Except.map, hone.mp h]
    · have h' : oneofNasaNames name = false := by simpa using h
      simp [NasaDatabase.withName, getNasaDatabaseContent, h', Except.map]
      have := fun hdisj => h (hone.mpr hdisj)
      tauto
  · intro hdisj
    have h := hone.mpr hdisj
    simp [NasaDatabase.withName, getNasaDatabaseContent, h, Except.map]

/-- A concrete embedded filesystem for the witness: path-tagged
contents. -/
def sampleFS : EmbeddedFS := { openFile := fun path => path }

/-- A concrete parse function for the witness: wrap the raw contents. -/
def wrapParse : String → NasaDatabase := fun s => { content := s }

/-- Claim C9, witness: for the supported name `"cea"`, `withName` loads
and parses the embedded file `databases/nasa/cea.dat`. -/
theorem nasa_withName_witness :
    NasaDatabase.withName wrapParse sampleFS ("cea" : String) =
      Except.ok (wrapParse (sampleFS.openFile
        (("databases/nasa/" : String) ++ ("cea" : String) ++ (".dat" : String)))) :=
  (nasa_withName_fails_iff_unknown_name wrapParse sampleFS ("cea" : String)).2
    (Or.inl rfl)

theorem dotq_nil (r : List ℚ) : dotq r [] = 0 := by
  simp [dotq]

theorem matVec_nil_getD (A : List (List ℚ)) (i : Nat) : (matVec A []).getD i 0 = 0 := by
  have hrep : matVec A [] = List.replicate A.length 0 := by
    simp [matVec, dotq_nil]
  rcases Nat.lt_or_ge i A.length with h | h
  · rw [hrep, List.getD_eq_getElem _ _ (by simpa using h)]
    simp
  · refine List.getD_eq_default _ _ ?_
    simpa [hrep] using h

/-- Claim C7: for every converged solve of a classic Gibbs energy
minimization configuration (no auxiliary control-linked primal variables,
`Nx = Nn`, and no parameters, `Np = 0`), and under the spec's contract for
the external optimizer (a converged iterate satisfies the linear equality
constraints of the problem it was given within the tolerance, and has the
problem's dimensions), every component of the product of the assembled
conservation matrix with the solved species amounts equals the
corresponding component of the assembled right-hand side vector `be`
(derived from the conditions and the prior chemical state) within
`epsilon`. -/
theorem conservation_within_epsilon_on_convergence
    (impl : Impl) (state0 : ChemicalState) (conditions : EquilibriumConditions)
    (restrictions : EquilibriumRestrictions)
    (hfeas : OptSolverFeasibleOnSuccess impl.optsolver impl.options.epsilon)
    (hdims : OptSolverPreservesDims impl.optsolver)
    (hx : impl.dims.Nx = impl.dims.Nn)
    (hp : impl.dims.Np = 0)
    (hconv : ((impl.solve3 state0 conditions restrictions).2).optima.succeeded = true)
    (i : Nat) (hi : i < (impl.setup.assembleVectorBe conditions state0).length) :
    absq ((matVec impl.setup.assembleMatrixAex
        ((impl.solve3 state0 conditions restrictions).1.speciesAmounts)).getD i 0 -
      (impl.setup.assembleVectorBe conditions state0).getD i 0) ≤
      impl.options.epsilon := by
  set problem := impl.updateOptProblem state0 conditions restrictions with hprob
  set s0 := impl.updateOptState problem.dims state0 with hs0
  have hsucc : (impl.optsolver problem s0).1.succeeded = true := hconv
  have hfr := hfeas problem s0 hsucc
  have hxl : (impl.optsolver problem s0).2.x.length = impl.dims.Nx := (hdims problem s0).1
  have hpl : (impl.optsolver problem s0).2.p.length = 0 := by
    have h2 : (impl.optsolver problem s0).2.p.length = impl.dims.Np := (hdims problem s0).2
    rw [h2, hp]
  have hpnil : (impl.optsolver problem s0).2.p = [] := List.length_eq_zero.mp hpl
  have hamounts : (impl.solve3 state0 conditions restrictions).1.speciesAmounts =
      (impl.optsolver problem s0).2.x := by
    show (impl.optsolver problem s0).2.x.take impl.dims.Nn = (impl.optsolver problem s0).2.x
    exact List.take_of_length_le (le_of_eq (hxl.trans hx))
  have hmem :
      ((matVec problem.Aex (impl.optsolver problem s0).2.x).getD i 0 +
        (matVec problem.Aep (impl.optsolver problem s0).2.p).getD i 0 -
        problem.be.getD i 0) ∈
      linResidual problem (impl.optsolver problem s0).2.x
        (impl.optsolver problem s0).2.p := by
    simp only [linResidual]
    exact List.mem_map_of_mem _ (List.mem_range.mpr hi)
  have hri := hfr _ hmem
  rw [hpnil, matVec_nil_getD, add_zero] at hri
  rw [hamounts]
  exact hri

/-- An optimizer stub used as a witness for the optimizer contract: it
proposes the zero iterate of the problem's dimensions and reports
convergence exactly when that iterate satisfies the linear equality
constraints within the tolerance `1`. -/
def checkSolver : OptProblem → OptimaState → OptimaResult × OptimaState :=
  fun problem _ =>
    let st : OptimaState :=
      { x := List.replicate problem.dims.x 0
        p := List.replicate problem.dims.p 0
        y := [] }
    ({ succeeded := decide (∀ r ∈ linResidual problem st.x st.p, absq r ≤ (1 : ℚ))
       iterations := 0 }, st)

theorem checkSolver_feasible : OptSolverFeasibleOnSuccess checkSolver (1 : ℚ) := by
  intro problem s0 h r hr
  simp only [checkSolver, decide_eq_true_eq] at h
  exact h r hr

theorem checkSolver_dims : OptSolverPreservesDims checkSolver :=
  fun problem _ => ⟨List.length_replicate problem.dims.x 0,
    List.length_replicate problem.dims.p 0⟩

/-- A solver `Impl` over the control-variable-free `sampleSpecsGEM`
(`Nx = Nn = 1`, `Np = 0`) driven by `checkSolver` with tolerance `1`. -/
def implGEM : Impl :=
  { system := sampleSystem
    specs := sampleSpecsGEM
    dims := EquilibriumDims.ofSpecs sampleSpecsGEM
    setup := sampleSetup
    options := { defaultEquilibriumOptions with epsilon := 1 }
    optsolver := checkSolver }

/-- Claim C7, witness: the concrete converged solve of `implGEM` satisfies
the conservation equation of its single component within the
tolerance. -/
theorem conservation_within_epsilon_witness :
    absq ((matVec implGEM.setup.assembleMatrixAex
        ((implGEM.solve3 freshState condsGEM restrGEM).1.speciesAmounts)).getD 0 0 -
      (implGEM.setup.assembleVectorBe condsGEM freshState).getD 0 0) ≤
      implGEM.options.epsilon :=
  conservation_within_epsilon_on_convergence implGEM freshState condsGEM restrGEM
    checkSolver_feasible checkSolver_dims rfl rfl
    (by
      have h1 : implGEM.optsolver = checkSolver := rfl
      simp only [Impl.solve3, Impl.updateOptProblem, Impl.updateOptState, h1, checkSolver,
        decide_eq_true_eq]
      intro r hr
      simp [implGEM, sampleSetup, sampleSpecsGEM, sampleSystem, EquilibriumDims.ofSpecs,
        EquilibriumSpecs.ofSystem, EquilibriumConditions.params, condsGEM, freshState,
        linResidual, matVec, dotq, List.range_succ] at hr
      subst hr
      norm_num [absq])
    0 (by decide)

end Reaktoro
